import Mathlib

/-!
Verification of the SwipeAgency repository (two Streamlit scripts, `eg.py` and
`swipe.py`, each wiring a chat UI to an SQL-generation pipeline over a
database handle and a chat-completion service).

The embedding models the external services (`SQLDatabase.get_table_info`,
`SQLDatabase.run`, `ChatOpenAI` completion) as oracle functions returning
`Except String String` (an `Except.error` models a raised Python exception).
Every pipeline function additionally returns the trace of external calls it
performed, as a `List Event`, so that properties about which calls are made
(and with which prompt contents) are statable.

Prompts are modelled structurally: a `Prompt` records exactly the template
variables that the source feeds into each `ChatPromptTemplate`
(`sqlPrompt` for `get_sql_chain`, `responsePrompt` for the regular response
chain, `reportPrompt` for `generate_report_template` in `swipe.py`).

Python string operations used in control flow (`str.strip`, `str.lower`,
substring containment) are modelled over `List Char` by structural recursion
(ASCII-faithful) so that concrete instances evaluate by `decide`.
-/

namespace SwipeAgency

/-- Author role of a conversation turn (`HumanMessage` / `AIMessage`). -/
inductive Role
  | user
  | assistant
deriving DecidableEq, Repr

/-- One message of the conversation history. -/
structure Turn where
  role : Role
  text : String
deriving DecidableEq, Repr

/-- Structured content of each prompt template, as filled by the source:
`sqlPrompt` is `get_sql_chain`'s template ({schema}, {chat_history},
{question}); `responsePrompt` is the response template ({schema},
{chat_history}, {query}, {question}, {response}); `reportPrompt` is
`generate_report_template`'s template, which has only {chat_history}. -/
inductive Prompt
  | sqlPrompt (schema : String) (chat_history : List Turn) (question : String)
  | responsePrompt (schema : String) (chat_history : List Turn)
      (query : String) (question : String) (response : String)
  | reportPrompt (chat_history : List Turn)
deriving DecidableEq, Repr

/-- External calls performed by the pipeline: a `db.get_table_info()` fetch,
a completion-service call with a given prompt, or a `db.run(query)`. -/
inductive Event
  | schemaFetch
  | completion (p : Prompt)
  | dbRun (query : String)
deriving DecidableEq, Repr

/-- The database handle. `tableInfo i` is the result of the i-th
`get_table_info()` call of the current turn (indexing makes "fetched fresh,
not cached" statable: distinct calls may observe distinct schema text).
`run q` is the result of `db.run(q)`; `Except.error` models a raised
database exception. -/
structure Db where
  tableInfo : Nat → Except String String
  run : String → Except String String

/-- The completion service (`ChatOpenAI` behind `StrOutputParser`):
one call per prompt; `Except.error` models an unreachable/failing service. -/
structure Llm where
  complete : Prompt → Except String String

/-- Number of `get_table_info()` calls in a trace. -/
def schemaFetchCount (tr : List Event) : Nat :=
  tr.countP fun e => match e with | .schemaFetch => true | _ => false

/-- Number of `db.run` calls in a trace. -/
def dbRunCount (tr : List Event) : Nat :=
  tr.countP fun e => match e with | .dbRun _ => true | _ => false

/-- ASCII lowering, modelling Python `str.lower()` on the ASCII range. -/
def pyLower (s : String) : String :=
  ⟨s.data.map Char.toLower⟩

/-- Whitespace set stripped by Python `str.strip()` (ASCII portion). -/
def isStripped (c : Char) : Bool :=
  c == ' ' || c == '\t' || c == '\n' || c == '\r' || c == '\x0b' || c == '\x0c'

/-- Python `str.strip()`: drop leading and trailing whitespace. -/
def pyStrip (s : String) : String :=
  ⟨((s.data.dropWhile isStripped).reverse.dropWhile isStripped).reverse⟩

/-- Whether the first list is an initial segment of the second. -/
def charsStartWith : List Char → List Char → Bool
  | [], _ => true
  | _ :: _, [] => false
  | a :: as, b :: bs => a == b && charsStartWith as bs

/-- Whether `pat` occurs contiguously in the second list. -/
def charsHaveSub (pat : List Char) : List Char → Bool
  | [] => pat.isEmpty
  | c :: rest => charsStartWith pat (c :: rest) || charsHaveSub pat rest

/-- Python `pat in s`: substring containment. -/
def containsSub (s pat : String) : Bool :=
  charsHaveSub pat.data s.data

/-- Python `str(x)` on an `os.getenv` result: `None` renders as "None". -/
def pyStr : Option String → String
  | none => "None"
  | some s => s

/-- The f-string of `init_database` in both files:
`oracle+cx_oracle://{user}:{password}@{host}:{port}/?service_name={service_name}`. -/
def buildUri (u pw h po sv : String) : String :=
  "oracle+cx_oracle://" ++ u ++ ":" ++ pw ++ "@" ++ h ++ ":" ++ po ++
    "/?service_name=" ++ sv

/-- What the chat handler displays for the AI side of a turn:
a rendered answer, an `st.error` failure notice, or nothing
(no input / blank input). -/
inductive Shown
  | answer (text : String)
  | failure (text : String)
  | nothing
deriving DecidableEq, Repr

namespace eg

/-- `eg.py` `init_database`: every parameter is overwritten from the
environment with no fallback (`os.getenv(key)` returns `None` when unset,
rendered as "None" in the f-string); the parameters are never used. -/
def init_database_uri (env : String → Option String)
    (user password host database port : String) : String :=
  buildUri (pyStr (env "DB_USER")) (pyStr (env "DB_PASSWORD"))
    (pyStr (env "DB_HOST")) (pyStr (env "DB_PORT")) (pyStr (env "DB_SERVICE"))

/-- `eg.py` sidebar: `st.text_input("Host", value=os.getenv("DB_HOST", "localhost"))`. -/
def sidebarDefault_Host (env : String → Option String) : String :=
  (env "DB_HOST").getD "localhost"

/-- `eg.py` sidebar: `st.text_input("Port", value=os.getenv("DB_PORT", "1521"))`. -/
def sidebarDefault_Port (env : String → Option String) : String :=
  (env "DB_PORT").getD "1521"

/-- `eg.py` sidebar: `st.text_input("User", value=os.getenv("DB_USER", "root"))`. -/
def sidebarDefault_User (env : String → Option String) : String :=
  (env "DB_USER").getD "root"

/-- `eg.py` sidebar: `st.text_input("Password", value=os.getenv("DB_PASSWORD", ""))`. -/
def sidebarDefault_Password (env : String → Option String) : String :=
  (env "DB_PASSWORD").getD ""

/-- `eg.py` sidebar: `st.text_input("Service_Name", value=os.getenv("DB_SERVICE", "orcl"))`. -/
def sidebarDefault_Service (env : String → Option String) : String :=
  (env "DB_SERVICE").getD "orcl"

/-- Invocation of the chain built by `eg.py` `get_sql_chain`:
fetch the schema (`get_schema` calls `db.get_table_info()`, the turn's
0-th fetch), format the SQL prompt, call the completion service. -/
def get_sql_chain (llm : Llm) (db : Db) (question : String)
    (chat_history : List Turn) : Except String String × List Event :=
  match db.tableInfo 0 with
  | .error e => (.error e, [.schemaFetch])
  | .ok schema =>
    match llm.complete (.sqlPrompt schema chat_history question) with
    | .error e =>
        (.error e, [.schemaFetch, .completion (.sqlPrompt schema chat_history question)])
    | .ok sql =>
        (.ok sql, [.schemaFetch, .completion (.sqlPrompt schema chat_history question)])

/-- `eg.py` `get_response`: run the SQL chain, then the response chain,
which assigns `schema = db.get_table_info()` (the turn's second fetch) and
`response = db.run(query)` — the run is NOT wrapped in try/except
(`execute_query` is never called), so a database error propagates out as
`Except.error`. -/
def get_response (llm : Llm) (db : Db) (user_query : String)
    (chat_history : List Turn) : Except String String × List Event :=
  match get_sql_chain llm db user_query chat_history with
  | (.error e, tr) => (.error e, tr)
  | (.ok query, tr) =>
    match db.tableInfo 1 with
    | .error e => (.error e, tr ++ [.schemaFetch])
    | .ok schema =>
      match db.run query with
      | .error e => (.error e, tr ++ [.schemaFetch, .dbRun query])
      | .ok response =>
        match llm.complete
            (.responsePrompt schema chat_history query user_query response) with
        | .error e =>
            (.error e, tr ++ [.schemaFetch, .dbRun query,
              .completion (.responsePrompt schema chat_history query user_query response)])
        | .ok ans =>
            (.ok ans, tr ++ [.schemaFetch, .dbRun query,
              .completion (.responsePrompt schema chat_history query user_query response)])

/-- `eg.py` `execute_query`: runs the query and captures any database
error as the text `Query failed: {e}`. Defined in the source but never
called by the pipeline. -/
def execute_query (query : String) (db : Db) : String × List Event :=
  match db.run query with
  | .ok r => (r, [.dbRun query])
  | .error e => ("Query failed: " ++ e, [.dbRun query])

/-- `eg.py` chat-input handler: on non-blank input append the user turn,
call `get_response` inside try/except (showing `st.error` on failure),
and on success render and append the assistant turn. Returns the new
chat history, what was shown, and the trace of external calls. -/
def chatTurn (llm : Llm) (db : Db) (user_query : Option String)
    (chat_history : List Turn) : List Turn × Shown × List Event :=
  match user_query with
  | none => (chat_history, .nothing, [])
  | some q =>
    if pyStrip q = "" then (chat_history, .nothing, [])
    else
      match get_response llm db q (chat_history ++ [⟨Role.user, q⟩]) with
      | (.ok response, tr) =>
          (chat_history ++ [⟨Role.user, q⟩, ⟨Role.assistant, response⟩],
           .answer response, tr)
      | (.error e, tr) =>
          (chat_history ++ [⟨Role.user, q⟩],
           .failure ("Failed to get a response:" ++ e), tr)

end eg

namespace swipe

/-- `swipe.py` `init_database`: each field falls back to the parameter via
`os.getenv(key, param)`, except the service name which falls back to the
hard-coded constant `"orcl"`; the `database` parameter is unused.
Returns the five URI components `(user, password, host, port, service)`. -/
def init_database_fields (env : String → Option String)
    (user password host database port : String) :
    String × String × String × String × String :=
  ((env "DB_USER").getD user, (env "DB_PASSWORD").getD password,
   (env "DB_HOST").getD host, (env "DB_PORT").getD port,
   (env "DB_SERVICE").getD "orcl")

/-- `swipe.py` `init_database`: the connection URI built from the fields. -/
def init_database_uri (env : String → Option String)
    (user password host database port : String) : String :=
  match init_database_fields env user password host database port with
  | (u, pw, h, po, sv) => buildUri u pw h po sv

/-- `swipe.py` `get_sql_chain`: identical dataflow to `eg.py`'s
(schema fetch, SQL prompt, completion call). -/
def get_sql_chain (llm : Llm) (db : Db) (question : String)
    (chat_history : List Turn) : Except String String × List Event :=
  match db.tableInfo 0 with
  | .error e => (.error e, [.schemaFetch])
  | .ok schema =>
    match llm.complete (.sqlPrompt schema chat_history question) with
    | .error e =>
        (.error e, [.schemaFetch, .completion (.sqlPrompt schema chat_history question)])
    | .ok sql =>
        (.ok sql, [.schemaFetch, .completion (.sqlPrompt schema chat_history question)])

/-- `swipe.py` `generate_report_template`: a prompt whose only template
variable is `{chat_history}`. -/
def generate_report_template (chat_history : List Turn) : Prompt :=
  .reportPrompt chat_history

/-- `swipe.py` `get_response`: if `"generate report" in user_query.lower()`,
invoke only the report chain (one completion call seeded with the
conversation state alone); otherwise run the regular SQL pipeline, identical
to `eg.py`'s (`db.run` again not wrapped in try/except). -/
def get_response (llm : Llm) (db : Db) (user_query : String)
    (chat_history : List Turn) : Except String String × List Event :=
  if containsSub (pyLower user_query) "generate report" then
    match llm.complete (generate_report_template chat_history) with
    | .error e => (.error e, [.completion (generate_report_template chat_history)])
    | .ok r => (.ok r, [.completion (generate_report_template chat_history)])
  else
    match get_sql_chain llm db user_query chat_history with
    | (.error e, tr) => (.error e, tr)
    | (.ok query, tr) =>
      match db.tableInfo 1 with
      | .error e => (.error e, tr ++ [.schemaFetch])
      | .ok schema =>
        match db.run query with
        | .error e => (.error e, tr ++ [.schemaFetch, .dbRun query])
        | .ok response =>
          match llm.complete
              (.responsePrompt schema chat_history query user_query response) with
          | .error e =>
              (.error e, tr ++ [.schemaFetch, .dbRun query,
                .completion (.responsePrompt schema chat_history query user_query response)])
          | .ok ans =>
              (.ok ans, tr ++ [.schemaFetch, .dbRun query,
                .completion (.responsePrompt schema chat_history query user_query response)])

/-- `swipe.py` `execute_query`: same dead helper as in `eg.py`. -/
def execute_query (query : String) (db : Db) : String × List Event :=
  match db.run query with
  | .ok r => (r, [.dbRun query])
  | .error e => ("Query failed: " ++ e, [.dbRun query])

/-- `swipe.py` chat-input handler, identical in structure to `eg.py`'s. -/
def chatTurn (llm : Llm) (db : Db) (user_query : Option String)
    (chat_history : List Turn) : List Turn × Shown × List Event :=
  match user_query with
  | none => (chat_history, .nothing, [])
  | some q =>
    if pyStrip q = "" then (chat_history, .nothing, [])
    else
      match get_response llm db q (chat_history ++ [⟨Role.user, q⟩]) with
      | (.ok response, tr) =>
          (chat_history ++ [⟨Role.user, q⟩, ⟨Role.assistant, response⟩],
           .answer response, tr)
      | (.error e, tr) =>
          (chat_history ++ [⟨Role.user, q⟩],
           .failure ("Failed to get a response:" ++ e), tr)

/-- Messages the Connect-button handler can emit: `st.success` on connect,
`st.error` on failure, the fill-all-fields `st.warning`, and the
"Already connected" notice shown whenever a handle is stored. -/
inductive ConnMsg
  | connectedOk
  | connFailed (e : String)
  | warnFillAll
  | alreadyConnected
deriving DecidableEq, Repr

/-- Python `all([host, port, user, password, service_name])` over strings:
all five are non-empty (truthy). -/
def allFilled (host port user password service_name : String) : Bool :=
  !(host == "") && !(port == "") && !(user == "") && !(password == "") &&
    !(service_name == "")

/-- Outcome of one run of the sidebar connect block: the stored handle
afterwards, whether `init_database` was invoked, and the messages shown. -/
structure ConnectResult (α : Type) where
  db : Option α
  attempted : Bool
  msgs : List ConnMsg
deriving DecidableEq, Repr

/-- `swipe.py` sidebar connect block: the guarded
`if st.button("Connect") and not st.session_state.get("db")` with the inner
all-fields check, try/except around `init_database`, the `st.warning`
else-branch, and the trailing "Already connected" notice whenever a handle
is stored after the block. `init_db` is the outcome `init_database` would
have (`Except.error` models a raised connection exception). -/
def connectHandler {α : Type} (pressed : Bool) (db0 : Option α)
    (host port user password service_name : String)
    (init_db : Except String α) : ConnectResult α :=
  let step : ConnectResult α :=
    if pressed && db0.isNone then
      if allFilled host port user password service_name then
        match init_db with
        | .ok d => ⟨some d, true, [.connectedOk]⟩
        | .error e => ⟨db0, true, [.connFailed e]⟩
      else ⟨db0, false, [.warnFillAll]⟩
    else ⟨db0, false, []⟩
  ⟨step.db, step.attempted,
   step.msgs ++ if step.db.isSome then [.alreadyConnected] else []⟩

end swipe

/-! Concrete service instances, used as witnesses and counterexamples. -/

/-- A database whose schema text differs between the two fetches of a turn
(witnessing that each fetch is fresh) and whose runs succeed. -/
def okDb : Db where
  tableInfo := fun i => .ok (if i = 0 then "SCHEMA-A" else "SCHEMA-B")
  run := fun _ => .ok "ROWS"

/-- A database whose first schema fetch raises. -/
def schemaFailDb : Db where
  tableInfo := fun _ => .error "db down"
  run := fun _ => .ok "ROWS"

/-- A database that rejects every executed query. -/
def runFailDb : Db where
  tableInfo := fun _ => .ok "SCHEMA-A"
  run := fun _ => .error "ORA-00942: table or view does not exist"

/-- A completion service answering every prompt kind. -/
def okLlm : Llm where
  complete := fun p => match p with
    | .sqlPrompt .. => .ok "SELECT 1 FROM DUAL"
    | .responsePrompt .. => .ok "There is one row."
    | .reportPrompt _ => .ok "REPORT-TEXT"

/-- A completion service that fails on SQL synthesis only. -/
def synthFailLlm : Llm where
  complete := fun p => match p with
    | .sqlPrompt .. => .error "completion service unreachable"
    | _ => .ok "X"

/-- A completion service whose SQL synthesis returns empty text. -/
def emptySqlLlm : Llm where
  complete := fun p => match p with
    | .sqlPrompt .. => .ok ""
    | _ => .ok "X"

/-! Helper characterization lemmas, shared by several claim theorems. -/

/-- Full trace of `eg.py` `get_response` when every external call succeeds. -/
theorem eg_get_response_ok (llm : Llm) (db : Db) (q : String) (h : List Turn)
    (s0 s1 sql rows ans : String)
    (h0 : db.tableInfo 0 = .ok s0) (h1 : db.tableInfo 1 = .ok s1)
    (hsql : llm.complete (.sqlPrompt s0 h q) = .ok sql)
    (hrun : db.run sql = .ok rows)
    (hans : llm.complete (.responsePrompt s1 h sql q rows) = .ok ans) :
    eg.get_response llm db q h =
      (.ok ans, [.schemaFetch, .completion (.sqlPrompt s0 h q), .schemaFetch,
        .dbRun sql, .completion (.responsePrompt s1 h sql q rows)]) := by
  simp [eg.get_response, eg.get_sql_chain, h0, h1, hsql, hrun, hans]

/-- Full trace of `swipe.py` `get_response` on a non-report question when
every external call succeeds. -/
theorem swipe_get_response_ok (llm : Llm) (db : Db) (q : String) (h : List Turn)
    (s0 s1 sql rows ans : String)
    (hnr : containsSub (pyLower q) "generate report" = false)
    (h0 : db.tableInfo 0 = .ok s0) (h1 : db.tableInfo 1 = .ok s1)
    (hsql : llm.complete (.sqlPrompt s0 h q) = .ok sql)
    (hrun : db.run sql = .ok rows)
    (hans : llm.complete (.responsePrompt s1 h sql q rows) = .ok ans) :
    swipe.get_response llm db q h =
      (.ok ans, [.schemaFetch, .completion (.sqlPrompt s0 h q), .schemaFetch,
        .dbRun sql, .completion (.responsePrompt s1 h sql q rows)]) := by
  simp [swipe.get_response, swipe.get_sql_chain, hnr, h0, h1, hsql, hrun, hans]

/-- Full outcome of one `eg.py` chat turn when every external call succeeds. -/
theorem eg_chatTurn_ok (llm : Llm) (db : Db) (q : String) (h : List Turn)
    (s0 s1 sql rows ans : String)
    (hq : pyStrip q ≠ "")
    (h0 : db.tableInfo 0 = .ok s0) (h1 : db.tableInfo 1 = .ok s1)
    (hsql : llm.complete (.sqlPrompt s0 (h ++ [⟨Role.user, q⟩]) q) = .ok sql)
    (hrun : db.run sql = .ok rows)
    (hans : llm.complete
      (.responsePrompt s1 (h ++ [⟨Role.user, q⟩]) sql q rows) = .ok ans) :
    eg.chatTurn llm db (some q) h =
      (h ++ [⟨Role.user, q⟩, ⟨Role.assistant, ans⟩], .answer ans,
       [.schemaFetch, .completion (.sqlPrompt s0 (h ++ [⟨Role.user, q⟩]) q),
        .schemaFetch, .dbRun sql,
        .completion (.responsePrompt s1 (h ++ [⟨Role.user, q⟩]) sql q rows)]) := by
  have hresp := eg_get_response_ok llm db q (h ++ [⟨Role.user, q⟩]) s0 s1 sql rows ans
    h0 h1 hsql hrun hans
  simp [eg.chatTurn, hq, hresp]

/-- Full outcome of one `swipe.py` chat turn on a non-report question when
every external call succeeds. -/
theorem swipe_chatTurn_ok (llm : Llm) (db : Db) (q : String) (h : List Turn)
    (s0 s1 sql rows ans : String)
    (hq : pyStrip q ≠ "")
    (hnr : containsSub (pyLower q) "generate report" = false)
    (h0 : db.tableInfo 0 = .ok s0) (h1 : db.tableInfo 1 = .ok s1)
    (hsql : llm.complete (.sqlPrompt s0 (h ++ [⟨Role.user, q⟩]) q) = .ok sql)
    (hrun : db.run sql = .ok rows)
    (hans : llm.complete
      (.responsePrompt s1 (h ++ [⟨Role.user, q⟩]) sql q rows) = .ok ans) :
    swipe.chatTurn llm db (some q) h =
      (h ++ [⟨Role.user, q⟩, ⟨Role.assistant, ans⟩], .answer ans,
       [.schemaFetch, .completion (.sqlPrompt s0 (h ++ [⟨Role.user, q⟩]) q),
        .schemaFetch, .dbRun sql,
        .completion (.responsePrompt s1 (h ++ [⟨Role.user, q⟩]) sql q rows)]) := by
  have hresp := swipe_get_response_ok llm db q (h ++ [⟨Role.user, q⟩]) s0 s1 sql rows ans
    hnr h0 h1 hsql hrun hans
  simp [swipe.chatTurn, hq, hresp]

/-! Claim theorems. -/

/-- C1, counterexample: the claim quantifies over the orchestrated response
path of both files, but `eg.py`'s `get_response` has no report branch: on
the question "generate report" it still performs SQL synthesis (a
`sqlPrompt` completion call), two schema fetches, and a database execution
call — refuting "makes no SQL-synthesis call and no database execution
call". -/
theorem C1_eg_report_question_executes_sql :
    Event.dbRun "SELECT 1 FROM DUAL" ∈
      (eg.get_response okLlm okDb "generate report" []).2 ∧
    Event.completion (.sqlPrompt "SCHEMA-A" [] "generate report") ∈
      (eg.get_response okLlm okDb "generate report" []).2 ∧
    schemaFetchCount (eg.get_response okLlm okDb "generate report" []).2 = 2 := by
  decide

/-- C1 (amended to `swipe.py`): in `swipe.py`, for every question containing
"generate report" in any letter case, `get_response` makes no SQL-synthesis
call and no database execution call and performs exactly one external call:
the report-variant completion, whose prompt is seeded solely with the
Conversation State. (`eg.py`'s `get_response` has no such branch.) -/
theorem C1_swipe_report_path (llm : Llm) (db : Db) (q : String) (h : List Turn)
    (hr : containsSub (pyLower q) "generate report" = true) :
    (swipe.get_response llm db q h).2 = [.completion (.reportPrompt h)] ∧
    dbRunCount (swipe.get_response llm db q h).2 = 0 ∧
    schemaFetchCount (swipe.get_response llm db q h).2 = 0 := by
  have htr : (swipe.get_response llm db q h).2 = [.completion (.reportPrompt h)] := by
    rw [swipe.get_response, if_pos hr]
    rw [swipe.generate_report_template]
    cases llm.complete (Prompt.reportPrompt h) <;> rfl
  refine ⟨htr, ?_, ?_⟩ <;> rw [htr] <;> rfl

/-- C1 witness: the report path taken at a concrete mixed-case question. -/
theorem C1_swipe_report_path_check :
    containsSub (pyLower "Please GENERATE REPORT now") "generate report" = true ∧
    (swipe.get_response okLlm okDb "Please GENERATE REPORT now"
        [⟨Role.user, "Please GENERATE REPORT now"⟩]).2 =
      [.completion (.reportPrompt [⟨Role.user, "Please GENERATE REPORT now"⟩])] :=
  ⟨by decide,
   (C1_swipe_report_path okLlm okDb "Please GENERATE REPORT now"
      [⟨Role.user, "Please GENERATE REPORT now"⟩] (by decide)).1⟩

/-- C2: the claim matches the evident intent (`execute_query` captures a
database error as the text `Query failed: {e}`, and the response template
says "If the query fails, explain the issue"), but the pipeline never calls
`execute_query`: it runs `db.run(vars["query"])` unguarded, so a failing
execution raises out of `get_response` (result `Except.error`), the
Response Synthesizer is never invoked with the error as result context (the
trace ends at the `dbRun` call, with no `responsePrompt` completion), and
the chat handler shows a terminal failure notice to the user. -/
theorem C2_execution_error_not_forwarded :
    eg.get_response okLlm runFailDb "How many transactions?" [] =
      (.error "ORA-00942: table or view does not exist",
       [.schemaFetch, .completion (.sqlPrompt "SCHEMA-A" [] "How many transactions?"),
        .schemaFetch, .dbRun "SELECT 1 FROM DUAL"]) ∧
    (eg.execute_query "SELECT 1 FROM DUAL" runFailDb).1 =
      "Query failed: ORA-00942: table or view does not exist" ∧
    (eg.chatTurn okLlm runFailDb (some "How many transactions?") []).2.1 =
      .failure "Failed to get a response:ORA-00942: table or view does not exist" :=
  ⟨rfl, rfl, rfl⟩

/-- C3: the claim (and the security comment in `swipe.py`'s sidebar) says no
default or fallback credential values are baked into the source, but with
every environment variable unset and no operator input, `eg.py`'s sidebar
prefills the hard-coded constants localhost/1521/root/orcl, and `swipe.py`'s
`init_database` falls back to the hard-coded service name "orcl" in the
connection URI. -/
theorem C3_hardcoded_fallback_credentials :
    eg.sidebarDefault_Host (fun _ => none) = "localhost" ∧
    eg.sidebarDefault_Port (fun _ => none) = "1521" ∧
    eg.sidebarDefault_User (fun _ => none) = "root" ∧
    eg.sidebarDefault_Service (fun _ => none) = "orcl" ∧
    (swipe.init_database_fields (fun _ => none) "" "" "" "" "").2.2.2.2 = "orcl" ∧
    swipe.init_database_uri (fun _ => none) "" "" "" "" "" =
      "oracle+cx_oracle://:@:/?service_name=orcl" :=
  ⟨rfl, rfl, rfl, rfl, rfl, rfl⟩

/-- C8: `eg.py`'s `init_database` ignores every one of its parameters — each
connection field is overwritten from the environment before use — so for a
fixed environment the connection URI it builds is identical for any two
argument tuples, and the sidebar inputs have no effect on the handle. -/
theorem C8_init_database_ignores_arguments (env : String → Option String)
    (user password host database port : String)
    (user2 password2 host2 database2 port2 : String) :
    eg.init_database_uri env user password host database port =
      eg.init_database_uri env user2 password2 host2 database2 port2 := rfl

/-- C4: for every non-empty question not containing "generate report",
one completed orchestrated turn calls `db.get_table_info` exactly twice, in
both files: the first fetch (index 0) seeds the synthesis prompt and the
second, fresh fetch (index 1) seeds the response prompt — the response
prompt's schema is the value of the second call, not a cached copy of the
first. -/
theorem C4_schema_fetched_twice (llm : Llm) (db : Db) (q : String) (h : List Turn)
    (s0 s1 sql rows ans : String)
    (hq : pyStrip q ≠ "")
    (hnr : containsSub (pyLower q) "generate report" = false)
    (h0 : db.tableInfo 0 = .ok s0) (h1 : db.tableInfo 1 = .ok s1)
    (hsql : llm.complete (.sqlPrompt s0 (h ++ [⟨Role.user, q⟩]) q) = .ok sql)
    (hrun : db.run sql = .ok rows)
    (hans : llm.complete
      (.responsePrompt s1 (h ++ [⟨Role.user, q⟩]) sql q rows) = .ok ans) :
    (eg.chatTurn llm db (some q) h).2.2 =
      [.schemaFetch, .completion (.sqlPrompt s0 (h ++ [⟨Role.user, q⟩]) q),
       .schemaFetch, .dbRun sql,
       .completion (.responsePrompt s1 (h ++ [⟨Role.user, q⟩]) sql q rows)] ∧
    schemaFetchCount (eg.chatTurn llm db (some q) h).2.2 = 2 ∧
    (swipe.chatTurn llm db (some q) h).2.2 =
      [.schemaFetch, .completion (.sqlPrompt s0 (h ++ [⟨Role.user, q⟩]) q),
       .schemaFetch, .dbRun sql,
       .completion (.responsePrompt s1 (h ++ [⟨Role.user, q⟩]) sql q rows)] ∧
    schemaFetchCount (swipe.chatTurn llm db (some q) h).2.2 = 2 := by
  have he := eg_chatTurn_ok llm db q h s0 s1 sql rows ans hq h0 h1 hsql hrun hans
  have hs := swipe_chatTurn_ok llm db q h s0 s1 sql rows ans hq hnr h0 h1 hsql hrun hans
  rw [he, hs]
  exact ⟨rfl, rfl, rfl, rfl⟩

/-- C4 witness: a concrete completed turn in which the two fetches observe
different schema text ("SCHEMA-A" then "SCHEMA-B"), each seeding its own
prompt. -/
theorem C4_schema_fetched_twice_check :
    schemaFetchCount
      (eg.chatTurn okLlm okDb (some "How many transactions are available?") []).2.2 = 2 ∧
    schemaFetchCount
      (swipe.chatTurn okLlm okDb (some "How many transactions are available?") []).2.2 = 2 := by
  have h := C4_schema_fetched_twice okLlm okDb "How many transactions are available?" []
    "SCHEMA-A" "SCHEMA-B" "SELECT 1 FROM DUAL" "ROWS" "There is one row."
    (by decide) (by decide) rfl rfl rfl rfl rfl
  exact ⟨h.2.1, h.2.2.2⟩

/-- C5: in both files, a completed regular turn grows the Conversation State
by exactly 2 — the user turn appended before processing and the assistant
turn appended after a successful response — while an empty or
whitespace-only question leaves the state unchanged, shows nothing, and
makes no pipeline call. -/
theorem C5_history_growth (llm : Llm) (db : Db) (q : String) (h : List Turn) :
    (pyStrip q = "" →
      eg.chatTurn llm db (some q) h = (h, .nothing, []) ∧
      swipe.chatTurn llm db (some q) h = (h, .nothing, [])) ∧
    (pyStrip q ≠ "" → ∀ ans tr,
      eg.get_response llm db q (h ++ [⟨Role.user, q⟩]) = (.ok ans, tr) →
      (eg.chatTurn llm db (some q) h).1 =
        h ++ [⟨Role.user, q⟩, ⟨Role.assistant, ans⟩] ∧
      (eg.chatTurn llm db (some q) h).1.length = h.length + 2) ∧
    (pyStrip q ≠ "" → ∀ ans tr,
      swipe.get_response llm db q (h ++ [⟨Role.user, q⟩]) = (.ok ans, tr) →
      (swipe.chatTurn llm db (some q) h).1 =
        h ++ [⟨Role.user, q⟩, ⟨Role.assistant, ans⟩] ∧
      (swipe.chatTurn llm db (some q) h).1.length = h.length + 2) := by
  refine ⟨fun hb => ?_, fun hnb ans tr hok => ?_, fun hnb ans tr hok => ?_⟩
  · constructor <;> simp [eg.chatTurn, swipe.chatTurn, hb]
  · have : (eg.chatTurn llm db (some q) h).1 =
        h ++ [⟨Role.user, q⟩, ⟨Role.assistant, ans⟩] := by
      simp [eg.chatTurn, hnb, hok]
    refine ⟨this, ?_⟩
    rw [this]
    simp
  · have : (swipe.chatTurn llm db (some q) h).1 =
        h ++ [⟨Role.user, q⟩, ⟨Role.assistant, ans⟩] := by
      simp [swipe.chatTurn, hnb, hok]
    refine ⟨this, ?_⟩
    rw [this]
    simp

/-- C5 witness: a blank question leaves the state unchanged, and a concrete
completed turn ends with a history of length 2 (from length 0). -/
theorem C5_history_growth_check :
    eg.chatTurn okLlm okDb (some "   ") [] = ([], .nothing, []) ∧
    (eg.chatTurn okLlm okDb (some "hi") []).1.length = 2 ∧
    (swipe.chatTurn okLlm okDb (some "hi") []).1.length = 2 := by
  refine ⟨((C5_history_growth okLlm okDb "   " []).1 (by decide)).1, ?_, ?_⟩
  · exact ((C5_history_growth okLlm okDb "hi" []).2.1 (by decide)
      "There is one row."
      [.schemaFetch, .completion (.sqlPrompt "SCHEMA-A" [⟨Role.user, "hi"⟩] "hi"),
       .schemaFetch, .dbRun "SELECT 1 FROM DUAL",
       .completion (.responsePrompt "SCHEMA-B" [⟨Role.user, "hi"⟩]
         "SELECT 1 FROM DUAL" "hi" "ROWS")] rfl).2
  · exact ((C5_history_growth okLlm okDb "hi" []).2.2 (by decide)
      "There is one row."
      [.schemaFetch, .completion (.sqlPrompt "SCHEMA-A" [⟨Role.user, "hi"⟩] "hi"),
       .schemaFetch, .dbRun "SELECT 1 FROM DUAL",
       .completion (.responsePrompt "SCHEMA-B" [⟨Role.user, "hi"⟩]
         "SELECT 1 FROM DUAL" "hi" "ROWS")] rfl).2

/-- C6, counterexample: when SQL synthesis fails, the handler appends NO
error turn to the Conversation State — only the user turn remains, and the
error surfaces as a transient failure notice — refuting "records an error
turn in the Conversation State"; and when synthesis returns empty text
(which the claim counts as a synthesis failure), the pipeline does execute
SQL: `db.run("")` is called — refuting "executes no SQL". -/
theorem C6_no_error_turn_recorded :
    (swipe.chatTurn synthFailLlm okDb (some "how many rows?") []).1 =
      [⟨Role.user, "how many rows?"⟩] ∧
    (swipe.chatTurn synthFailLlm okDb (some "how many rows?") []).2.1 =
      .failure "Failed to get a response:completion service unreachable" ∧
    Event.dbRun "" ∈
      (swipe.chatTurn emptySqlLlm okDb (some "how many rows?") []).2.2 :=
  ⟨rfl, rfl, by decide⟩

/-- C6 (amended): in both files, when the SQL-synthesis completion call
raises, no SQL is executed and the turn ends back at Idle with a terminal
error notice, but no error turn is appended to the Conversation State —
the history keeps only the user turn. (A synthesis call returning empty
text is not detected as a failure: the empty query is passed to
execution.) -/
theorem C6_synthesis_failure_aborts (llm : Llm) (db : Db) (q : String)
    (h : List Turn) (s0 e : String)
    (hq : pyStrip q ≠ "")
    (hnr : containsSub (pyLower q) "generate report" = false)
    (h0 : db.tableInfo 0 = .ok s0)
    (hfail : llm.complete (.sqlPrompt s0 (h ++ [⟨Role.user, q⟩]) q) = .error e) :
    eg.chatTurn llm db (some q) h =
      (h ++ [⟨Role.user, q⟩], .failure ("Failed to get a response:" ++ e),
       [.schemaFetch, .completion (.sqlPrompt s0 (h ++ [⟨Role.user, q⟩]) q)]) ∧
    swipe.chatTurn llm db (some q) h =
      (h ++ [⟨Role.user, q⟩], .failure ("Failed to get a response:" ++ e),
       [.schemaFetch, .completion (.sqlPrompt s0 (h ++ [⟨Role.user, q⟩]) q)]) ∧
    dbRunCount (eg.chatTurn llm db (some q) h).2.2 = 0 ∧
    dbRunCount (swipe.chatTurn llm db (some q) h).2.2 = 0 := by
  have hre : eg.get_response llm db q (h ++ [⟨Role.user, q⟩]) =
      (.error e, [.schemaFetch, .completion (.sqlPrompt s0 (h ++ [⟨Role.user, q⟩]) q)]) := by
    simp [eg.get_response, eg.get_sql_chain, h0, hfail]
  have hrs : swipe.get_response llm db q (h ++ [⟨Role.user, q⟩]) =
      (.error e, [.schemaFetch, .completion (.sqlPrompt s0 (h ++ [⟨Role.user, q⟩]) q)]) := by
    simp [swipe.get_response, swipe.get_sql_chain, hnr, h0, hfail]
  have he : eg.chatTurn llm db (some q) h =
      (h ++ [⟨Role.user, q⟩], .failure ("Failed to get a response:" ++ e),
       [.schemaFetch, .completion (.sqlPrompt s0 (h ++ [⟨Role.user, q⟩]) q)]) := by
    simp [eg.chatTurn, hq, hre]
  have hs : swipe.chatTurn llm db (some q) h =
      (h ++ [⟨Role.user, q⟩], .failure ("Failed to get a response:" ++ e),
       [.schemaFetch, .completion (.sqlPrompt s0 (h ++ [⟨Role.user, q⟩]) q)]) := by
    simp [swipe.chatTurn, hq, hrs]
  rw [he, hs]
  exact ⟨rfl, rfl, rfl, rfl⟩

/-- C6 witness: the synthesis-failure behavior at a concrete turn. -/
theorem C6_synthesis_failure_aborts_check :
    eg.chatTurn synthFailLlm okDb (some "how many rows?") [] =
      ([⟨Role.user, "how many rows?"⟩],
       .failure "Failed to get a response:completion service unreachable",
       [.schemaFetch,
        .completion (.sqlPrompt "SCHEMA-A" [⟨Role.user, "how many rows?"⟩]
          "how many rows?")]) ∧
    dbRunCount (swipe.chatTurn synthFailLlm okDb (some "how many rows?") []).2.2 = 0 := by
  have h := C6_synthesis_failure_aborts synthFailLlm okDb "how many rows?" []
    "SCHEMA-A" "completion service unreachable" (by decide) (by decide) rfl rfl
  exact ⟨h.1, h.2.2.2⟩

/-- C7: in both files, every external-call failure inside a turn (schema
fetch, completion call, or database execution — any `Except.error` escaping
`get_response`) is caught by the handler's try/except and converted to a
terminal user-visible failure notice carrying the exception text; the
handler total-functionally returns the updated state, so nothing propagates
past the orchestration boundary as an unhandled fault. -/
theorem C7_failures_become_terminal_message (llm : Llm) (db : Db) (q : String)
    (h : List Turn) (e1 e2 : String) (tr1 tr2 : List Event)
    (hq : pyStrip q ≠ "")
    (he1 : eg.get_response llm db q (h ++ [⟨Role.user, q⟩]) = (.error e1, tr1))
    (he2 : swipe.get_response llm db q (h ++ [⟨Role.user, q⟩]) = (.error e2, tr2)) :
    eg.chatTurn llm db (some q) h =
      (h ++ [⟨Role.user, q⟩], .failure ("Failed to get a response:" ++ e1), tr1) ∧
    swipe.chatTurn llm db (some q) h =
      (h ++ [⟨Role.user, q⟩], .failure ("Failed to get a response:" ++ e2), tr2) := by
  constructor
  · simp [eg.chatTurn, hq, he1]
  · simp [swipe.chatTurn, hq, he2]

/-- C7 witness: a failing schema fetch becomes a terminal failure notice in
both files. -/
theorem C7_failures_become_terminal_message_check :
    eg.chatTurn okLlm schemaFailDb (some "hi") [] =
      ([⟨Role.user, "hi"⟩], .failure "Failed to get a response:db down",
       [.schemaFetch]) ∧
    swipe.chatTurn okLlm schemaFailDb (some "hi") [] =
      ([⟨Role.user, "hi"⟩], .failure "Failed to get a response:db down",
       [.schemaFetch]) :=
  C7_failures_become_terminal_message okLlm schemaFailDb "hi" []
    "db down" "db down" [.schemaFetch] [.schemaFetch] (by decide) rfl rfl

/-- C9: in both files, the user's turn is appended to the Conversation
State before `get_response` is invoked, so on a completed regular turn the
current question appears both as the question argument and as the final
entry of the chat history supplied to the synthesis prompt and to the
response prompt. -/
theorem C9_user_turn_in_both_prompts (llm : Llm) (db : Db) (q : String)
    (h : List Turn) (s0 s1 sql rows ans : String)
    (hq : pyStrip q ≠ "")
    (hnr : containsSub (pyLower q) "generate report" = false)
    (h0 : db.tableInfo 0 = .ok s0) (h1 : db.tableInfo 1 = .ok s1)
    (hsql : llm.complete (.sqlPrompt s0 (h ++ [⟨Role.user, q⟩]) q) = .ok sql)
    (hrun : db.run sql = .ok rows)
    (hans : llm.complete
      (.responsePrompt s1 (h ++ [⟨Role.user, q⟩]) sql q rows) = .ok ans) :
    List.getLast? (h ++ [⟨Role.user, q⟩]) = some ⟨Role.user, q⟩ ∧
    Event.completion (.sqlPrompt s0 (h ++ [⟨Role.user, q⟩]) q) ∈
      (eg.chatTurn llm db (some q) h).2.2 ∧
    Event.completion (.responsePrompt s1 (h ++ [⟨Role.user, q⟩]) sql q rows) ∈
      (eg.chatTurn llm db (some q) h).2.2 ∧
    Event.completion (.sqlPrompt s0 (h ++ [⟨Role.user, q⟩]) q) ∈
      (swipe.chatTurn llm db (some q) h).2.2 ∧
    Event.completion (.responsePrompt s1 (h ++ [⟨Role.user, q⟩]) sql q rows) ∈
      (swipe.chatTurn llm db (some q) h).2.2 := by
  have he := eg_chatTurn_ok llm db q h s0 s1 sql rows ans hq h0 h1 hsql hrun hans
  have hs := swipe_chatTurn_ok llm db q h s0 s1 sql rows ans hq hnr h0 h1 hsql hrun hans
  rw [he, hs]
  refine ⟨List.getLast?_concat h, ?_, ?_, ?_, ?_⟩ <;> simp

/-- C9 witness: at a concrete completed turn, the question is the last entry
of the history carried by both prompts. -/
theorem C9_user_turn_in_both_prompts_check :
    List.getLast? ([] ++ [(⟨Role.user, "hi"⟩ : Turn)]) = some ⟨Role.user, "hi"⟩ ∧
    Event.completion (.sqlPrompt "SCHEMA-A" ([] ++ [⟨Role.user, "hi"⟩]) "hi") ∈
      (eg.chatTurn okLlm okDb (some "hi") []).2.2 := by
  have h := C9_user_turn_in_both_prompts okLlm okDb "hi" []
    "SCHEMA-A" "SCHEMA-B" "SELECT 1 FROM DUAL" "ROWS" "There is one row."
    (by decide) (by decide) rfl rfl rfl rfl rfl
  exact ⟨h.1, h.2.1⟩

/-- C10, counterexample: with a handle already stored, pressing Connect
with all five fields filled attempts nothing and leaves the state
unchanged, but — contrary to the claim's "otherwise a warning is shown" —
no warning is emitted (only the standing "Already connected" notice). -/
theorem C10_no_warning_when_connected :
    (swipe.connectHandler true (some 0) "h" "p" "u" "pw" "s" (Except.ok 1)).attempted
      = false ∧
    swipe.ConnMsg.warnFillAll ∉
      (swipe.connectHandler true (some 0) "h" "p" "u" "pw" "s" (Except.ok 1)).msgs ∧
    (swipe.connectHandler true (some 0) "h" "p" "u" "pw" "s" (Except.ok 1)).db
      = some 0 := by
  decide

/-- C10 (amended): pressing Connect attempts a connection exactly when all
five fields are non-empty and no handle is stored; when no handle is stored
but a field is empty, a warning is shown and the state is unchanged; when a
handle already exists nothing is attempted, the handle is kept, and no
warning is shown (an "already connected" notice appears instead); whenever
no attempt is made the stored handle is unchanged. -/
theorem C10_connect_guard {α : Type} (pressed : Bool) (db0 : Option α)
    (host port user password service_name : String) (init_db : Except String α) :
    ((swipe.connectHandler pressed db0 host port user password service_name
        init_db).attempted =
      (pressed && db0.isNone &&
        swipe.allFilled host port user password service_name)) ∧
    (pressed = true → db0 = none →
      swipe.allFilled host port user password service_name = false →
      swipe.connectHandler pressed db0 host port user password service_name
          init_db = ⟨none, false, [.warnFillAll]⟩) ∧
    (∀ d, db0 = some d →
      swipe.connectHandler pressed db0 host port user password service_name
          init_db = ⟨some d, false, [.alreadyConnected]⟩) ∧
    ((swipe.connectHandler pressed db0 host port user password service_name
        init_db).attempted = false →
      (swipe.connectHandler pressed db0 host port user password service_name
        init_db).db = db0) := by
  cases hf : swipe.allFilled host port user password service_name <;>
    cases pressed <;> cases db0 <;> cases init_db <;>
      simp [swipe.connectHandler, hf]

/-- C10 witness: with no handle and an empty Port field, pressing Connect
warns and stores nothing. -/
theorem C10_connect_guard_check :
    swipe.connectHandler true (none : Option Nat) "h" "" "u" "pw" "s"
        (Except.ok 1) =
      ⟨none, false, [swipe.ConnMsg.warnFillAll]⟩ :=
  (C10_connect_guard true none "h" "" "u" "pw" "s" (Except.ok 1)).2.1
    rfl rfl (by decide)

end SwipeAgency
